import Mathlib

/-!
Shallow embedding of `src/hnvlib/mnist.py` (HnV-Lab/hnvlib).

Tensors of scalars are embedded as lists of rationals; an image is a
28×28 grid, i.e. a list of rows, each a list of scalars.  The learnable
state of `NeuralNetwork` (three `nn.Linear` layers) is embedded as the
weight matrices and bias vectors of those layers, together with the
`training` mode flag every `nn.Module` carries (toggled by
`model.train()` / `model.eval()`).  Imperative routines (`train`,
`test`, `predict`, `run_pytorch`) are embedded as pure functions that
return their result together with an event trace recording the
framework calls they perform, in order.
-/

/-- A flattened tensor of scalars. -/
abbrev Vec := List ℚ

/-- An image: a list of rows of scalar intensities (28 rows of 28 for MNIST). -/
abbrev Image := List (List ℚ)

/-- A labelled sample, as yielded by `datasets.MNIST`: `(image, label)`. -/
abbrev Sample := Image × Nat

/-- `nn.Flatten`: flattens each sample's trailing dimensions into one vector. -/
def flatten (x : Image) : Vec := List.flatten x

/-- Dot product of a weight row with an input vector. -/
def dot (w x : Vec) : ℚ := ((w.zip x).map (fun p => p.1 * p.2)).sum

/-- `nn.Linear(inF, outF)` applied to one input vector: for each output
unit `j`, `b[j] + ⟨w[j], x⟩`. -/
def linear (w : List Vec) (b : Vec) (x : Vec) : Vec :=
  (w.zip b).map (fun p => dot p.1 x + p.2)

/-- `nn.ReLU` applied elementwise. -/
def relu (x : Vec) : Vec := x.map (fun a => max a 0)

/-- The learnable state of `NeuralNetwork` (mnist.py:17-29): the weights and
biases of the three `nn.Linear` layers of `linear_relu_stack`, plus the
`nn.Module` training-mode flag (set by `model.train()` / `model.eval()`). -/
structure NeuralNetwork where
  w1 : List Vec
  b1 : Vec
  w2 : List Vec
  b2 : Vec
  w3 : List Vec
  b3 : Vec
  training : Bool

/-- The layer dimensions the `NeuralNetwork` constructor fixes:
`Linear(28*28, 512)`, `Linear(512, 512)`, `Linear(512, 10)`. -/
def NeuralNetwork.Wellformed (m : NeuralNetwork) : Prop :=
  m.w1.length = 512 ∧ (∀ r ∈ m.w1, r.length = 28 * 28) ∧ m.b1.length = 512 ∧
  m.w2.length = 512 ∧ (∀ r ∈ m.w2, r.length = 512) ∧ m.b2.length = 512 ∧
  m.w3.length = 10 ∧ (∀ r ∈ m.w3, r.length = 512) ∧ m.b3.length = 10

/-- `NeuralNetwork.forward` (mnist.py:31-41) on one sample:
`x = self.flatten(x); logits = self.linear_relu_stack(x)` where the stack is
`Linear(28*28,512) → ReLU → Linear(512,512) → ReLU → Linear(512,10)`. -/
def NeuralNetwork.forward (m : NeuralNetwork) (x : Image) : Vec :=
  linear m.w3 m.b3 (relu (linear m.w2 m.b2 (relu (linear m.w1 m.b1 (flatten x)))))

/-- Forward pass on a batch of images (PyTorch applies the module to the
whole leading batch dimension at once). -/
def NeuralNetwork.forwardBatch (m : NeuralNetwork) (xs : List Image) : List Vec :=
  xs.map m.forward

/-- `model.state_dict()`: the persisted learnable parameters of the three
linear layers (the training flag is not part of the state dict). -/
def NeuralNetwork.stateDict (m : NeuralNetwork) :
    List Vec × Vec × List Vec × Vec × List Vec × Vec :=
  (m.w1, m.b1, m.w2, m.b2, m.w3, m.b3)

/-- `model.load_state_dict(sd)`: replaces every learnable parameter of the
receiving module with the loaded ones; the mode flag is untouched. -/
def NeuralNetwork.loadStateDict (m : NeuralNetwork)
    (sd : List Vec × Vec × List Vec × Vec × List Vec × Vec) : NeuralNetwork :=
  { m with w1 := sd.1, b1 := sd.2.1, w2 := sd.2.2.1,
           b2 := sd.2.2.2.1, w3 := sd.2.2.2.2.1, b3 := sd.2.2.2.2.2 }

/-- `torch.save(model.state_dict(), 'model.pth')`: the file holds the
serialized state dict; the format is opaque, write-then-read-back. -/
def torchSave (sd : List Vec × Vec × List Vec × Vec × List Vec × Vec) :
    List Vec × Vec × List Vec × Vec × List Vec × Vec := sd

/-- `torch.load('model.pth')`: reads back the persisted state dict. -/
def torchLoad (file : List Vec × Vec × List Vec × Vec × List Vec × Vec) :
    List Vec × Vec × List Vec × Vec × List Vec × Vec := file

/-- `model.eval()` (sets the training flag of the module to false). -/
def NeuralNetwork.evalMode (m : NeuralNetwork) : NeuralNetwork :=
  { m with training := false }

/-- `model.train()` (sets the training flag of the module to true). -/
def NeuralNetwork.trainMode (m : NeuralNetwork) : NeuralNetwork :=
  { m with training := true }

/-- Index of the maximum entry of a score vector (`argmax`): first index
attaining the maximum, as `torch.argmax` reports for distinct scores. -/
def argmax (x : Vec) : Nat :=
  (x.foldl
    (fun st a =>
      if a > st.2.2 ∨ st.1 = 0 then (st.1 + 1, st.1, a) else (st.1 + 1, st.2.1, st.2.2))
    ((0 : Nat), (0 : Nat), (0 : ℚ))).2.1

/-- Result of `predict` (mnist.py:103-117): the printed
`(predicted, actual)` pair (none if the dataset is empty, where
`test_data[0]` would fail), the model as left after the call, and the
dataset as left after the call. -/
structure PredictResult where
  output : Option (Nat × Nat)
  model : NeuralNetwork
  data : List Sample

/-- `predict(test_data, model)` (mnist.py:103-117): `model.eval()`, read
`x = test_data[0][0]` and `y = test_data[0][1]`, compute `pred = model(x)`
under `no_grad`, report `pred[0].argmax(0)` against `y`.  The single
sample's tensor keeps its batch-like leading dim, so `model(x)` is the
forward pass on the one-image batch `[x]` and `pred[0]` its only row. -/
def predict (test_data : List Sample) (model : NeuralNetwork) : PredictResult :=
  let m := model.evalMode
  match test_data.head? with
  | none => { output := none, model := m, data := test_data }
  | some s =>
      let pred := m.forwardBatch [s.1]
      { output := some (argmax (pred.headI), s.2), model := m, data := test_data }

/- ----------------------------------------------------------------- -/
/- C1: persistence round-trip                                         -/
/- ----------------------------------------------------------------- -/

/-- C1: saving a model's parameters and loading them into a fresh model of
the same architecture (mnist.py:158-163) yields identical `predict` output
on every dataset: the forward pass reads only the state-dict parameters,
which the round trip restores exactly. -/
theorem predict_roundtrip (model fresh : NeuralNetwork) (test_data : List Sample) :
    (predict test_data ((fresh.loadStateDict (torchLoad (torchSave model.stateDict))))).output
      = (predict test_data model).output := by
  cases test_data with
  | nil => rfl
  | cons s rest =>
      simp [predict, torchLoad, torchSave, NeuralNetwork.loadStateDict,
        NeuralNetwork.stateDict, NeuralNetwork.evalMode, NeuralNetwork.forwardBatch,
        NeuralNetwork.forward]

/- ----------------------------------------------------------------- -/
/- C2: forward-pass shape                                             -/
/- ----------------------------------------------------------------- -/

theorem linear_length (w : List Vec) (b : Vec) (x : Vec) :
    (linear w b x).length = min w.length b.length := by
  simp [linear]

theorem relu_length (x : Vec) : (relu x).length = x.length := by
  simp [relu]

/-- C2: on a batch of 28×28 images, the forward pass of a well-formed
`NeuralNetwork` (mnist.py:17-41) flattens each image, applies the three
linear layers interleaved with the two ReLU activations, and returns
exactly 10 raw scores per sample, with output batch size equal to input
batch size. -/
theorem forward_shape (m : NeuralNetwork) (hm : m.Wellformed) (xs : List Image)
    (hxs : ∀ x ∈ xs, x.length = 28 ∧ ∀ r ∈ x, r.length = 28) :
    (m.forwardBatch xs).length = xs.length ∧
      ∀ v ∈ m.forwardBatch xs, v.length = 10 := by
  obtain ⟨h1, h1r, hb1, h2, h2r, hb2, h3, h3r, hb3⟩ := hm
  constructor
  · simp [NeuralNetwork.forwardBatch]
  · intro v hv
    obtain ⟨x, hx, rfl⟩ := List.mem_map.mp hv
    simp [NeuralNetwork.forward, linear_length, h3, hb3]

/-- A zero-initialised network of the architecture the `NeuralNetwork`
constructor fixes, used to instantiate shape statements. -/
def zeroNet : NeuralNetwork :=
  { w1 := List.replicate 512 (List.replicate (28 * 28) 0)
    b1 := List.replicate 512 0
    w2 := List.replicate 512 (List.replicate 512 0)
    b2 := List.replicate 512 0
    w3 := List.replicate 10 (List.replicate 512 0)
    b3 := List.replicate 10 0
    training := true }

/-- A blank 28×28 image. -/
def blankImage : Image := List.replicate 28 (List.replicate 28 0)

theorem zeroNet_wellformed : zeroNet.Wellformed := by
  refine ⟨List.length_replicate _ _, ?_, List.length_replicate _ _,
    List.length_replicate _ _, ?_, List.length_replicate _ _,
    List.length_replicate _ _, ?_, List.length_replicate _ _⟩ <;>
  · intro r hr
    rw [List.eq_of_mem_replicate hr]
    exact List.length_replicate _ _

theorem blankImage_shape : ∀ x ∈ [blankImage], x.length = 28 ∧ ∀ r ∈ x, r.length = 28 := by
  intro x hx
  simp only [List.mem_singleton] at hx
  subst hx
  constructor
  · simp [blankImage]
  · intro r hr
    simp [blankImage, List.eq_of_mem_replicate hr]

/-- Witness for `forward_shape` at the concrete zero network and a
single-image batch. -/
theorem forward_shape_witness :
    zeroNet.Wellformed ∧
      (∀ x ∈ [blankImage], x.length = 28 ∧ ∀ r ∈ x, r.length = 28) ∧
      ((zeroNet.forwardBatch [blankImage]).length = [blankImage].length ∧
        ∀ v ∈ zeroNet.forwardBatch [blankImage], v.length = 10) :=
  ⟨zeroNet_wellformed, blankImage_shape,
    forward_shape zeroNet zeroNet_wellformed [blankImage] blankImage_shape⟩

/- ----------------------------------------------------------------- -/
/- C10: predict depends only on the first dataset element             -/
/- ----------------------------------------------------------------- -/

/-- C10: the reported output of `predict` (mnist.py:103-117) depends only
on the model and the dataset's element at index 0: two datasets with the
same first element give the same predicted-versus-actual report, and no
other dataset element is read. -/
theorem predict_head_only (m : NeuralNetwork) (ds1 ds2 : List Sample)
    (h : ds1.head? = ds2.head?) :
    (predict ds1 m).output = (predict ds2 m).output := by
  unfold predict
  rw [h]
  cases ds2.head? <;> rfl

/-- A tiny network (empty layers) used only to instantiate `predict`
statements on concrete data. -/
def miniNet : NeuralNetwork :=
  { w1 := [], b1 := [], w2 := [], b2 := [], w3 := [], b3 := [], training := true }

/-- Witness for `predict_head_only`: two concrete datasets sharing their
first sample but differing afterwards. -/
theorem predict_head_only_witness :
    ([([[1]], 3), ([[2]], 4)] : List Sample).head? = ([([[1]], 3)] : List Sample).head? ∧
      (predict [([[1]], 3), ([[2]], 4)] miniNet).output
        = (predict [([[1]], 3)] miniNet).output :=
  ⟨rfl, predict_head_only miniNet [([[1]], 3), ([[2]], 4)] [([[1]], 3)] rfl⟩

/- ----------------------------------------------------------------- -/
/- C5: data-loader construction                                       -/
/- ----------------------------------------------------------------- -/

/-- The `torch.utils.data.DataLoader` configuration the pipelines build:
the constructor arguments the repository passes, plus the `shuffle`
keyword argument, whose framework default is `False` when not passed. -/
structure DataLoaderCfg where
  batchSize : Nat
  numWorkers : Nat
  shuffle : Bool

/-- `DataLoader(dataset, batch_size=.., num_workers=..)` with `shuffle`
left at its framework default of `False`. -/
def mkDataLoader (batchSize numWorkers : Nat) (shuffle : Bool := false) : DataLoaderCfg :=
  { batchSize := batchSize, numWorkers := numWorkers, shuffle := shuffle }

/-- mnist.py:142 — `DataLoader(training_data, batch_size=batch_size, num_workers=16)`. -/
def runPytorchTrainLoader (batch_size : Nat) : DataLoaderCfg := mkDataLoader batch_size 16

/-- mnist.py:143 — `DataLoader(test_data, batch_size=batch_size, num_workers=8)`. -/
def runPytorchTestLoader (batch_size : Nat) : DataLoaderCfg := mkDataLoader batch_size 8

/-- mnist.py:264 — the training loader of `run_pytorch_lightning`, built
with the same arguments as the manual pipeline's. -/
def runLightningTrainLoader (batch_size : Nat) : DataLoaderCfg := mkDataLoader batch_size 16

/-- mnist.py:265 — the validation loader of `run_pytorch_lightning`. -/
def runLightningTestLoader (batch_size : Nat) : DataLoaderCfg := mkDataLoader batch_size 8

/-- C5 counterexample: the claim says the training loader shuffles the
dataset per epoch while the evaluation loader is fixed; but at
`batch_size = 64` the training loaders of both pipelines are constructed
without `shuffle=True`, so their `shuffle` flag is the framework default
`False` and batch composition is NOT randomized. -/
theorem train_loader_not_shuffled :
    ¬ ((runPytorchTrainLoader 64).shuffle = true ∧
        (runPytorchTestLoader 64).shuffle = false ∧
        (runLightningTrainLoader 64).shuffle = true ∧
        (runLightningTestLoader 64).shuffle = false) := by
  decide

/-- C5 (amended): in both pipelines neither loader passes `shuffle`, so
both the training and the evaluation loader keep the framework default
`shuffle = False`: batch composition is in fixed dataset order for
training and evaluation alike, identical across epochs. -/
theorem loaders_fixed_order (batch_size : Nat) :
    (runPytorchTrainLoader batch_size).shuffle = false ∧
      (runPytorchTestLoader batch_size).shuffle = false ∧
      (runLightningTrainLoader batch_size).shuffle = false ∧
      (runLightningTestLoader batch_size).shuffle = false := by
  exact ⟨rfl, rfl, rfl, rfl⟩

/- ----------------------------------------------------------------- -/
/- C3: order of operations in the manual training step                -/
/- ----------------------------------------------------------------- -/

/-- The framework calls the body of `train` (mnist.py:44-72) performs. -/
inductive TrainEvent where
  | setTrainMode
  | toDevice
  | forwardPass
  | lossComp
  | zeroGrad
  | backward
  | optStep
  | progressPrint
deriving DecidableEq

/-- The calls the loop body of `train` performs for the batch at index
`idx`: `X, y = X.to(device), y.to(device)`; `pred = model(X)`;
`loss = loss_fn(pred, y)`; `optimizer.zero_grad()`; `loss.backward()`;
`optimizer.step()`; then the periodic progress print when
`batch % 100 == 0`. -/
def batchEvents (idx : Nat) : List TrainEvent :=
  [.toDevice, .forwardPass, .lossComp, .zeroGrad, .backward, .optStep] ++
    (if idx % 100 = 0 then [.progressPrint] else [])

/-- The `for batch, (X, y) in enumerate(dataloader):` loop of `train`,
starting at batch index `idx`. -/
def trainLoop (idx : Nat) : List (List Sample) → List TrainEvent
  | [] => []
  | _ :: bs => batchEvents idx ++ trainLoop (idx + 1) bs

/-- `train(dataloader, device, model, loss_fn, optimizer)`
(mnist.py:44-72): `model.train()`, then the enumerated loop over the
loader's batches. -/
def trainTrace (batches : List (List Sample)) : List TrainEvent :=
  .setTrainMode :: trainLoop 0 batches

theorem trainLoop_closed_form (bs : List (List Sample)) :
    ∀ k, trainLoop k bs = (List.range bs.length).flatMap (fun i => batchEvents (k + i)) := by
  induction bs with
  | nil => intro k; rfl
  | cons b bs ih =>
      intro k
      have hshift : ∀ i : Nat, k + (i + 1) = (k + 1) + i := by omega
      simp only [trainLoop, ih (k + 1), List.length_cons, List.range_succ_eq_map,
        List.flatMap_cons, Nat.add_zero, List.flatMap_map, Function.comp]
      congr 1
      apply List.flatMap_congr
      intro i _
      rw [hshift i]

theorem batchEvents_count_optStep (i : Nat) :
    (batchEvents i).count TrainEvent.optStep = 1 := by
  by_cases h : i % 100 = 0 <;> simp [batchEvents, h]

theorem trainLoop_count_optStep (bs : List (List Sample)) :
    ∀ k, (trainLoop k bs).count TrainEvent.optStep = bs.length := by
  induction bs with
  | nil => intro k; rfl
  | cons b bs ih =>
      intro k
      simp [trainLoop, List.count_append, batchEvents_count_optStep, ih (k + 1),
        Nat.add_comm]

/-- C3: the manual training step (mnist.py:44-72) performs, for each batch
of the loader in order, the sequence: move to device, forward pass, loss
computation, gradient clearing, back-propagation, one optimizer update
(followed by the periodic progress print); and it performs exactly one
optimizer update per batch. -/
theorem train_step_order (batches : List (List Sample)) :
    trainTrace batches
        = TrainEvent.setTrainMode ::
            (List.range batches.length).flatMap (fun i => batchEvents i) ∧
      (trainTrace batches).count TrainEvent.optStep = batches.length := by
  constructor
  · simp only [trainTrace, trainLoop_closed_form batches 0, Nat.zero_add]
  · simp [trainTrace, trainLoop_count_optStep batches 0]

/- ----------------------------------------------------------------- -/
/- C8: epoch loop of run_pytorch                                      -/
/- ----------------------------------------------------------------- -/

/-- The top-level actions of `run_pytorch` (mnist.py:120-163) after setup. -/
inductive RunEvent where
  | epochHeader (t : Nat)
  | trainCall (t : Nat)
  | testCall (t : Nat)
  | donePrint
  | saveModel
  | loadModel
  | predictCall
deriving DecidableEq

/-- The `for t in range(epochs):` loop of `run_pytorch` (mnist.py:152-155):
each iteration prints the epoch header, runs `train`, then runs `test`.
`epochLoop n` is the trace of iterations `t = 0, …, n-1` in order. -/
def epochLoop : Nat → List RunEvent
  | 0 => []
  | n + 1 => epochLoop n ++ [.epochHeader n, .trainCall n, .testCall n]

/-- `run_pytorch` after construction of loaders/model/optimizer
(mnist.py:152-163): the epoch loop, the final `Done!` print, saving the
state dict, loading it into a fresh model, and the `predict` call. -/
def runPytorchTrace (epochs : Nat) : List RunEvent :=
  epochLoop epochs ++ [.donePrint, .saveModel, .loadModel, .predictCall]

theorem epochLoop_length (n : Nat) : (epochLoop n).length = 3 * n := by
  induction n with
  | zero => rfl
  | succ n ih => simp [epochLoop, ih]; omega

theorem epochLoop_get (n : Nat) :
    ∀ t, t < n →
      (epochLoop n)[3 * t]? = some (.epochHeader t) ∧
      (epochLoop n)[3 * t + 1]? = some (.trainCall t) ∧
      (epochLoop n)[3 * t + 2]? = some (.testCall t) := by
  induction n with
  | zero => intro t ht; omega
  | succ n ih =>
      intro t ht
      rcases Nat.lt_succ_iff_lt_or_eq.mp ht with h | rfl
      · obtain ⟨ha, hb, hc⟩ := ih t h
        have hlt : 3 * t + 2 < (epochLoop n).length := by
          rw [epochLoop_length]; omega
        refine ⟨?_, ?_, ?_⟩
        · rw [epochLoop, List.getElem?_append_left (by omega)]; exact ha
        · rw [epochLoop, List.getElem?_append_left (by omega)]; exact hb
        · rw [epochLoop, List.getElem?_append_left (by omega)]; exact hc
      · have hlen : (epochLoop t).length = 3 * t := epochLoop_length t
        refine ⟨?_, ?_, ?_⟩
        · rw [epochLoop, List.getElem?_append_right (by omega)]
          have h0 : 3 * t - (epochLoop t).length = 0 := by omega
          rw [h0]; rfl
        · rw [epochLoop, List.getElem?_append_right (by omega)]
          have h1 : 3 * t + 1 - (epochLoop t).length = 1 := by omega
          rw [h1]; rfl
        · rw [epochLoop, List.getElem?_append_right (by omega)]
          have h2 : 3 * t + 2 - (epochLoop t).length = 2 := by omega
          rw [h2]; rfl

/-- C8: the epoch loop of `run_pytorch` (mnist.py:152-159) is a single
linear sequence: iteration `t` occupies positions `3t`, `3t+1`, `3t+2` of
the trace (header, then `train`, then `test`, so evaluation directly
follows training inside the same epoch and epochs never interleave); the
loop runs exactly `epochs` iterations (`3 * epochs` loop events), and the
positions right after the loop hold the terminal `Done!` print and the
persistence of the final parameters. -/
theorem run_pytorch_epoch_loop (epochs : Nat) :
    (runPytorchTrace epochs).length = 3 * epochs + 4 ∧
      (∀ t, t < epochs →
        (runPytorchTrace epochs)[3 * t]? = some (.epochHeader t) ∧
        (runPytorchTrace epochs)[3 * t + 1]? = some (.trainCall t) ∧
        (runPytorchTrace epochs)[3 * t + 2]? = some (.testCall t)) ∧
      (runPytorchTrace epochs)[3 * epochs]? = some .donePrint ∧
      (runPytorchTrace epochs)[3 * epochs + 1]? = some .saveModel ∧
      (runPytorchTrace epochs)[3 * epochs + 2]? = some .loadModel ∧
      (runPytorchTrace epochs)[3 * epochs + 3]? = some .predictCall := by
  have hlen := epochLoop_length epochs
  refine ⟨?_, ?_, ?_, ?_, ?_, ?_⟩
  · simp [runPytorchTrace, hlen]
  · intro t ht
    have h2 : 3 * t + 2 < (epochLoop epochs).length := by omega
    obtain ⟨ha, hb, hc⟩ := epochLoop_get epochs t ht
    refine ⟨?_, ?_, ?_⟩ <;>
      rw [runPytorchTrace, List.getElem?_append_left (by omega)] <;>
      assumption
  all_goals
    rw [runPytorchTrace, List.getElem?_append_right (by omega)]
  · simp [hlen]
  · have : 3 * epochs + 1 - (epochLoop epochs).length = 1 := by omega
    rw [this]; rfl
  · have : 3 * epochs + 2 - (epochLoop epochs).length = 2 := by omega
    rw [this]; rfl
  · have : 3 * epochs + 3 - (epochLoop epochs).length = 3 := by omega
    rw [this]; rfl

/-- Witness for `run_pytorch_epoch_loop` at `epochs = 2`, reading the
per-epoch positional facts at `t = 1`. -/
theorem run_pytorch_epoch_loop_witness :
    (1 : Nat) < 2 ∧
      ((runPytorchTrace 2)[3 * 1]? = some (.epochHeader 1) ∧
        (runPytorchTrace 2)[3 * 1 + 1]? = some (.trainCall 1) ∧
        (runPytorchTrace 2)[3 * 1 + 2]? = some (.testCall 1)) :=
  ⟨by decide, (run_pytorch_epoch_loop 2).2.1 1 (by decide)⟩

/- ----------------------------------------------------------------- -/
/- C4: test-step metric bounds                                        -/
/- ----------------------------------------------------------------- -/

/-- The per-batch correct count of `test` (mnist.py:97):
`(pred.argmax(1) == y).type(torch.float).sum()` — the rows of
`pred = model(X)` align with the samples of the batch. -/
def batchCorrect (m : NeuralNetwork) (batch : List Sample) : Nat :=
  batch.countP (fun s => argmax (m.forward s.1) = s.2)

/-- `test(dataloader, device, model, loss_fn)` (mnist.py:75-100):
`size = len(dataloader.dataset)`; `num_batches = len(dataloader)`;
`model.eval()`; under `no_grad`, accumulate `loss_fn(pred, y).item()` and
the correct count over the batches; then `test_loss /= num_batches` and
`correct /= size`.  The loader is embedded as its list of batches, whose
total element count is the dataset size.  Returns
`(avg loss, accuracy, model after the call)`. -/
def testRun (loader : List (List Sample)) (model : NeuralNetwork)
    (lossFn : List Vec → List Nat → ℚ) : ℚ × ℚ × NeuralNetwork :=
  let size : Nat := (loader.map List.length).sum
  let numBatches : Nat := loader.length
  let m := model.evalMode
  let testLoss : ℚ :=
    (loader.map (fun b => lossFn (m.forwardBatch (b.map Prod.fst)) (b.map Prod.snd))).sum
  let correct : Nat := (loader.map (fun b => batchCorrect m b)).sum
  (testLoss / (numBatches : ℚ), (correct : ℚ) / (size : ℚ), m)

/-- C4: for every dataset (list of batches) given to `test`
(mnist.py:75-100) with a non-negative loss function (as cross-entropy is),
the reported accuracy lies in `[0, 1]` and the reported mean loss is
non-negative. -/
theorem test_metrics_bounds (loader : List (List Sample)) (model : NeuralNetwork)
    (lossFn : List Vec → List Nat → ℚ)
    (hloss : ∀ p y, 0 ≤ lossFn p y) :
    0 ≤ (testRun loader model lossFn).1 ∧
      0 ≤ (testRun loader model lossFn).2.1 ∧
      (testRun loader model lossFn).2.1 ≤ 1 := by
  have hsum : (0 : ℚ) ≤ (loader.map (fun b =>
      lossFn (model.evalMode.forwardBatch (b.map Prod.fst)) (b.map Prod.snd))).sum := by
    apply List.sum_nonneg
    intro x hx
    obtain ⟨b, _, rfl⟩ := List.mem_map.mp hx
    exact hloss _ _
  have hcor : (loader.map (fun b => batchCorrect model.evalMode b)).sum
      ≤ (loader.map List.length).sum := by
    apply List.sum_le_sum
    intro b _
    exact List.countP_le_length _
  refine ⟨?_, ?_, ?_⟩
  · exact div_nonneg hsum (Nat.cast_nonneg _)
  · exact div_nonneg (Nat.cast_nonneg _) (Nat.cast_nonneg _)
  · rcases Nat.eq_zero_or_pos ((loader.map List.length).sum) with hz | hp
    · have hc0 : (loader.map (fun b => batchCorrect model.evalMode b)).sum = 0 := by
        omega
      simp [testRun, hc0]
    · apply div_le_one_of_le₀
      · exact_mod_cast hcor
      · exact_mod_cast Nat.le_of_lt hp

/-- Witness for `test_metrics_bounds`: a concrete one-batch loader with
the zero loss function. -/
theorem test_metrics_bounds_witness :
    (∀ p y, (0 : ℚ) ≤ (fun (_ : List Vec) (_ : List Nat) => (0 : ℚ)) p y) ∧
      (0 ≤ (testRun [[([[1]], 0)]] miniNet (fun _ _ => 0)).1 ∧
        0 ≤ (testRun [[([[1]], 0)]] miniNet (fun _ _ => 0)).2.1 ∧
        (testRun [[([[1]], 0)]] miniNet (fun _ _ => 0)).2.1 ≤ 1) :=
  ⟨fun _ _ => le_refl 0,
    test_metrics_bounds [[([[1]], 0)]] miniNet (fun _ _ => 0) (fun _ _ => le_refl 0)⟩

/- ----------------------------------------------------------------- -/
/- C9: effects of predict                                             -/
/- ----------------------------------------------------------------- -/

/-- C9 counterexample: `predict` is not entirely mutation-free on the
model object: `model.eval()` (mnist.py:111) flips the module's training
flag, so on a model in training mode the model that comes out of the call
differs from the one that went in. -/
theorem predict_flips_training_mode :
    (predict [([[1]], 3)] (miniNet.trainMode)).model ≠ miniNet.trainMode := by
  intro h
  have hflag := congrArg NeuralNetwork.training h
  simp [predict, NeuralNetwork.evalMode, NeuralNetwork.trainMode, miniNet] at hflag

/-- C9 (amended): `predict` (mnist.py:103-117) runs inference on exactly
the first dataset element, reporting the argmax of the model's score
vector on that sample against that sample's true label; it mutates no
model parameter and no dataset element — its only effect on the model is
switching it to evaluation mode (`model.eval()`). -/
theorem predict_effects (m : NeuralNetwork) (ds : List Sample) :
    (predict ds m).output
        = ds.head?.map (fun s => (argmax (m.forward s.1), s.2)) ∧
      (predict ds m).model.stateDict = m.stateDict ∧
      (predict ds m).model.training = false ∧
      (predict ds m).data = ds := by
  cases ds with
  | nil =>
      simp [predict, NeuralNetwork.evalMode, NeuralNetwork.stateDict]
  | cons s rest =>
      simp [predict, NeuralNetwork.evalMode, NeuralNetwork.stateDict,
        NeuralNetwork.forwardBatch, NeuralNetwork.forward]

/- ----------------------------------------------------------------- -/
/- Lightning module (mnist.py:166-239)                                -/
/- ----------------------------------------------------------------- -/

/-- The running state of the `torchmetrics.Accuracy(num_classes=10)`
accumulator: count of correct top-1 predictions and count of samples
seen since the last reset. -/
structure MetricState where
  correct : Nat
  total : Nat
deriving DecidableEq

/-- The freshly-constructed (or reset) accumulator: nothing seen yet. -/
def MetricState.init : MetricState := { correct := 0, total := 0 }

/-- `metric.update(pred, y)`: adds the batch's correct top-1 count and
its sample count to the running sums. -/
def MetricState.update (s : MetricState) (pred : List Vec) (y : List Nat) : MetricState :=
  { correct := s.correct + ((pred.zip y).countP fun p => argmax p.1 = p.2),
    total := s.total + y.length }

/-- `metric.compute()`: the accumulated accuracy, correct over total
(the empty-state value, with nothing accumulated, is `0/0 = 0` under the
rational-division convention). -/
def MetricState.compute (s : MetricState) : ℚ := (s.correct : ℚ) / (s.total : ℚ)

/-- `metric.reset()`: clears the accumulator back to its initial state. -/
def MetricState.reset (_ : MetricState) : MetricState := MetricState.init

/-- The state of `NeuralNetworkModule` (mnist.py:166-173): the wrapped
`NeuralNetwork`, the loss object installed by the constructor
(`nn.CrossEntropyLoss()`, a framework-supplied batch loss function), and
the `torchmetrics.Accuracy` accumulator. -/
structure NeuralNetworkModule where
  model : NeuralNetwork
  lossFn : List Vec → List Nat → ℚ
  metric : MetricState

/-- The optimizer object `configure_optimizers` builds:
`optim.SGD(self.parameters(), lr=0.01, momentum=0.9)` — learning rate,
momentum, and the parameters it is bound to. -/
structure SGDConfig where
  lr : ℚ
  momentum : ℚ
  boundParams : List Vec × Vec × List Vec × Vec × List Vec × Vec

/-- `NeuralNetworkModule.configure_optimizers` (mnist.py:175-181). -/
def NeuralNetworkModule.configureOptimizers (M : NeuralNetworkModule) : SGDConfig :=
  { lr := 1 / 100, momentum := 9 / 10, boundParams := M.model.stateDict }

/-- The framework calls a lifecycle callback performs, in order. -/
inductive StepEvent where
  | forwardPass
  | lossComp
  | metricUpdate
  | logged (key : String) (value : ℚ)
  | backwardCall
  | optStepCall

/-- `NeuralNetworkModule.training_step` (mnist.py:193-210): `X, y = batch`;
`pred = self(X)`; `loss = self.loss_fn(pred, y)`;
`self.log('train_loss', loss)`; `return {'loss': loss}`.  Returns the
trace of calls performed and the returned loss value. -/
def NeuralNetworkModule.trainingStep (M : NeuralNetworkModule) (batch : List Sample) :
    List StepEvent × ℚ :=
  let pred := M.model.forwardBatch (batch.map Prod.fst)
  let loss := M.lossFn pred (batch.map Prod.snd)
  ([.forwardPass, .lossComp, .logged "train_loss" loss], loss)

/-- `NeuralNetworkModule.validation_step` (mnist.py:212-230): `X, y = batch`;
`pred = self(X)`; `loss = self.loss_fn(pred, y)`;
`self.metric.update(pred, y)`; `self.log('val_loss', loss)`;
`return {'val_loss': loss}`.  Returns the trace, the module with its
updated accumulator, and the returned loss. -/
def NeuralNetworkModule.validationStep (M : NeuralNetworkModule) (batch : List Sample) :
    List StepEvent × NeuralNetworkModule × ℚ :=
  let pred := M.model.forwardBatch (batch.map Prod.fst)
  let loss := M.lossFn pred (batch.map Prod.snd)
  ([.forwardPass, .lossComp, .metricUpdate, .logged "val_loss" loss],
    { M with metric := M.metric.update pred (batch.map Prod.snd) }, loss)

/-- `NeuralNetworkModule.validation_epoch_end` (mnist.py:232-239):
`self.log('val_acc', self.metric.compute())`; `self.metric.reset()`.
Returns the trace and the module with its accumulator reset. -/
def NeuralNetworkModule.validationEpochEnd (M : NeuralNetworkModule) :
    List StepEvent × NeuralNetworkModule :=
  ([.logged "val_acc" M.metric.compute], { M with metric := M.metric.reset })

/-- One validation epoch as the external trainer drives it: the
`validation_step` callback on each batch of the loader in order. -/
def runValidationEpoch (M : NeuralNetworkModule) (batches : List (List Sample)) :
    NeuralNetworkModule :=
  batches.foldl (fun acc b => (acc.validationStep b).2.1) M

/- ----------------------------------------------------------------- -/
/- C6: training-step callback and optimizer configuration             -/
/- ----------------------------------------------------------------- -/

/-- C6: the `training_step` callback (mnist.py:193-210) computes the
module's cross-entropy loss on the batch, logs it under `train_loss`, and
returns it, performing no backward call and no optimizer step itself; and
`configure_optimizers` (mnist.py:175-181) returns the single SGD
optimizer with learning rate `0.01` and momentum `0.9`, bound to the
module's parameters. -/
theorem training_step_and_optimizer (M : NeuralNetworkModule) (batch : List Sample) :
    StepEvent.backwardCall ∉ (M.trainingStep batch).1 ∧
      StepEvent.optStepCall ∉ (M.trainingStep batch).1 ∧
      (M.trainingStep batch).2
          = M.lossFn (M.model.forwardBatch (batch.map Prod.fst)) (batch.map Prod.snd) ∧
      StepEvent.logged "train_loss" (M.trainingStep batch).2 ∈ (M.trainingStep batch).1 ∧
      M.configureOptimizers
          = { lr := 1 / 100, momentum := 9 / 10, boundParams := M.model.stateDict } := by
  refine ⟨?_, ?_, rfl, ?_, rfl⟩
  · simp [NeuralNetworkModule.trainingStep]
  · simp [NeuralNetworkModule.trainingStep]
  · simp [NeuralNetworkModule.trainingStep]

/- ----------------------------------------------------------------- -/
/- C7: validation-epoch-end reads, logs, then resets                  -/
/- ----------------------------------------------------------------- -/

/-- C7: after any sequence of `validation_step` updates, the
end-of-validation-epoch callback (mnist.py:232-239) first logs the value
computed from the still-accumulated metric state, and only then resets
the accumulator; a fresh `compute` on the state it leaves behind yields
the accumulator's defined empty-state value, independent of everything
the epoch's `validation_step` calls accumulated. -/
theorem validation_epoch_end_resets (M : NeuralNetworkModule)
    (batches : List (List Sample)) :
    ((runValidationEpoch M batches).validationEpochEnd).1
        = [StepEvent.logged "val_acc" (runValidationEpoch M batches).metric.compute] ∧
      ((runValidationEpoch M batches).validationEpochEnd).2.metric = MetricState.init ∧
      ((runValidationEpoch M batches).validationEpochEnd).2.metric.compute
        = MetricState.init.compute := by
  refine ⟨rfl, rfl, rfl⟩
